import Mathlib

set_option maxRecDepth 8000

/-!
Verification development for the streaming session client of the
google-gemini-live-api-boilerplate repository: a shallow embedding of the
`MultimodalLiveClient` WebSocket transport (connect / disconnect / receive
demultiplexer / outbound senders) and of the bounded deduplicating session
log store, together with theorems settling the specified behaviors.

Stateful handler code is embedded as explicit state-passing functions that
return the ordered list of observable actions (socket operations, emitted
events, log entries) the handler performs, in program order.
-/

namespace GeminiLive

/-! ## JavaScript semantics helpers

Models of the JavaScript string/array primitives the source uses, with
JS semantics (negative `slice` indices, `indexOf` returning -1, substring
`includes`). -/

/-- JS `Array.prototype.slice(start)` / `String.prototype.slice(start)`
with a single (possibly negative) start index: a negative start counts
from the end clamped at 0, a non-negative start drops that many leading
elements. -/
def jsSliceStart {α : Type} (start : Int) (xs : List α) : List α :=
  if start < 0 then xs.drop (xs.length - start.natAbs) else xs.drop start.toNat

/-- JS `String.prototype.indexOf(needle)`: the least index at which
`needle` occurs as a contiguous substring of `hay`, or -1 when absent. -/
def jsIndexOf (hay needle : String) : Int :=
  match (List.range (hay.length + 1)).find?
      (fun i => needle.data.isPrefixOf (hay.data.drop i)) with
  | some i => Int.ofNat i
  | none => -1

/-- JS `String.prototype.includes(needle)`: substring containment. -/
def jsIncludes (hay needle : String) : Bool :=
  (List.range (hay.length + 1)).any
    (fun i => needle.data.isPrefixOf (hay.data.drop i))

/-- JS `String.prototype.toLowerCase()` (ASCII case mapping, per char). -/
def jsToLowerCase (s : String) : String := ⟨s.data.map Char.toLower⟩

/-- JS `String.prototype.startsWith(pre)`. -/
def jsStartsWith (s pre : String) : Bool := pre.data.isPrefixOf s.data

/-- lodash `difference(xs, ys)`: the elements of `xs` not contained in
`ys`, preserving the order of `xs`.  (lodash compares with SameValueZero,
i.e. reference identity on objects; in this embedding parts are values and
identity coincides with structural equality — see `difference_filter`.) -/
def difference {α : Type} [DecidableEq α] (xs ys : List α) : List α :=
  xs.filter (fun x => decide (x ∉ ys))

/-! ## Base64 codec

`base64ToArrayBuffer` lives in `src/lib/utils.ts`, which is not among the
provided sources; only its call site in the client is. -/

/-- Modelled from the spec: value of one base64 alphabet character
(§2 Binary/Base64 Codec, converting base64 text payloads to raw binary). -/
def base64CharVal (c : Char) : Option Nat :=
  if 'A' ≤ c ∧ c ≤ 'Z' then some (c.toNat - 65)
  else if 'a' ≤ c ∧ c ≤ 'z' then some (c.toNat - 97 + 26)
  else if '0' ≤ c ∧ c ≤ '9' then some (c.toNat - 48 + 52)
  else if c = '+' then some 62
  else if c = '/' then some 63
  else none

/-- Modelled from the spec: regroup 6-bit base64 values into 8-bit bytes
(§2 Binary/Base64 Codec). -/
def base64Regroup : List Nat → List Nat
  | a :: b :: c :: d :: rest =>
      (a * 4 + b / 16) :: ((b % 16) * 16 + c / 4) :: ((c % 4) * 64 + d) ::
        base64Regroup rest
  | [a, b] => [a * 4 + b / 16]
  | [a, b, c] => [a * 4 + b / 16, (b % 16) * 16 + c / 4]
  | _ => []

/-- Modelled from the spec: the Binary/Base64 Codec of `src/lib/utils.ts`
(not among the provided sources), decoding a base64 text payload to the
byte buffer it denotes (§2 Binary/Base64 Codec). -/
def base64ToArrayBuffer (s : String) : List Nat :=
  base64Regroup (s.data.filterMap base64CharVal)

/-! ## Data model

Message shapes from `@google/genai` as the client inspects them.  Only the
fields the client core reads are modelled.  JS duck-typed key-presence
checks (`'k' in obj`) are modelled as `Option` fields (`Bool` fields when
only presence matters). -/

/-- `Part.inlineData`: inline binary with a declared MIME type. -/
structure InlineData where
  mimeType : Option String
  data : Option String
deriving DecidableEq

/-- A content part as the client inspects it: the demultiplexer only reads
`inlineData` (its `mimeType` and `data`); `text` is carried through. -/
structure Part where
  text : Option String
  inlineData : Option InlineData
deriving DecidableEq

/-- `p.inlineData?.mimeType?.startsWith('audio/pcm')` with JS optional
chaining (undefined is falsy). -/
def isAudioPart (p : Part) : Bool :=
  match p.inlineData with
  | some d =>
    match d.mimeType with
    | some m => jsStartsWith m "audio/pcm"
    | none => false
  | none => false

/-- One entry of `toolCall.functionCalls`. -/
structure FunctionCall where
  id : String
  name : String
  args : String
deriving DecidableEq

/-- Inbound `toolCall` payload (passed through verbatim by the client). -/
structure LiveServerToolCall where
  functionCalls : List FunctionCall
deriving DecidableEq

/-- Inbound `toolCallCancellation` payload (passed through verbatim). -/
structure LiveServerToolCallCancellation where
  ids : List String
deriving DecidableEq

/-- `serverContent.modelTurn`: the model's content turn. -/
structure ModelTurn where
  parts : List Part
deriving DecidableEq

/-- `serverContent` as the client inspects it.  `interrupted` and
`turnComplete` model key presence (`'interrupted' in serverContent`);
`modelTurn` models `'modelTurn' in serverContent` together with its
`parts` (the source reads `serverContent.modelTurn.parts` directly). -/
structure LiveServerContent where
  interrupted : Bool
  turnComplete : Bool
  modelTurn : Option ModelTurn
deriving DecidableEq

/-- A decoded inbound frame: the top-level keys `receive` dispatches on,
in its priority order.  `Option`/`Bool` fields model key presence. -/
structure ServerMessage where
  toolCall : Option LiveServerToolCall
  toolCallCancellation : Option LiveServerToolCallCancellation
  setupComplete : Bool
  serverContent : Option LiveServerContent
deriving DecidableEq

/-- One media chunk of a `realtimeInput` message. -/
structure MediaChunk where
  mimeType : String
  data : String
deriving DecidableEq

/-- One entry of `toolResponse.functionResponses`. -/
structure FunctionResponse where
  id : String
  response : String
deriving DecidableEq

/-- Outbound `toolResponse` payload (passed through verbatim). -/
structure LiveClientToolResponse where
  functionResponses : List FunctionResponse
deriving DecidableEq

/-- A content turn built by `send`: `{ role: 'user', parts }`. -/
structure Content where
  role : String
  parts : List Part
deriving DecidableEq

/-- Outbound `clientContent` payload:
`{ turns: [...], turnComplete }`. -/
structure LiveClientContent where
  turns : List Content
  turnComplete : Bool
deriving DecidableEq

/-- `PrebuiltVoiceConfig` of the `@google/genai` SDK (external
dependency): the prebuilt voice selection. -/
structure PrebuiltVoiceConfig where
  voiceName : Option String := none
deriving DecidableEq

/-- `VoiceConfig` of the `@google/genai` SDK (external dependency). -/
structure VoiceConfig where
  prebuiltVoiceConfig : Option PrebuiltVoiceConfig := none
deriving DecidableEq

/-- `SpeechConfig` of the `@google/genai` SDK (external dependency): the
speech voice configuration. -/
structure SpeechConfig where
  voiceConfig : Option VoiceConfig := none
  languageCode : Option String := none
deriving DecidableEq

/-- The picked `GenerateContentConfig` fields named by `types.ts` for
`LiveSessionConfig.generationConfig` (SDK types; JSON numeric payloads
are modelled as rationals — the client never computes with them, it
serializes them verbatim). -/
structure GenerationConfig where
  candidateCount : Option Nat := none
  frequencyPenalty : Option Rat := none
  maxOutputTokens : Option Nat := none
  mediaResolution : Option String := none
  presencePenalty : Option Rat := none
  responseModalities : Option (List String) := none
  speechConfig : Option SpeechConfig := none
  temperature : Option Rat := none
  topK : Option Rat := none
  topP : Option Rat := none
deriving DecidableEq

/-- `PartUnion` of the `@google/genai` SDK: a part or a bare string. -/
inductive PartUnion where
  | part (p : Part)
  | str (s : String)
deriving DecidableEq

/-- `ContentUnion` of the `@google/genai` SDK: a content object, a list
of part-unions, or a single part-union. -/
inductive ContentUnion where
  | content (c : Content)
  | parts (ps : List PartUnion)
  | partU (p : PartUnion)
deriving DecidableEq

/-- A declared function of an SDK `Tool` (external dependency; only the
declaration shape matters to this repository, which passes tools through
verbatim). -/
structure FunctionDeclaration where
  name : Option String := none
  description : Option String := none
deriving DecidableEq

/-- `Tool` of the `@google/genai` SDK (external dependency). -/
structure Tool where
  functionDeclarations : Option (List FunctionDeclaration) := none
deriving DecidableEq

/-- `ToolListUnion` of the `@google/genai` SDK: the declared tool list. -/
abbrev ToolListUnion := List Tool

/-- The `LiveSessionConfig` record of the repository's `types.ts` (staged
as the second embedded document of `src/lib/text-generation.ts`, after
the doc separator): the target model identifier plus optional generation
parameters, system instruction and tool list.  Supplied once at connect
time; the transport stores it and re-sends it verbatim as the handshake
payload, never inspecting it. -/
structure LiveSessionConfig where
  model : String
  generationConfig : Option GenerationConfig := none
  systemInstruction : Option ContentUnion := none
  tools : Option ToolListUnion := none
deriving DecidableEq

/-- The message a log entry carries: a plain string or one of the
structured objects the client logs.  JS strict equality `===` (used by the
store's dedup check) is value equality on strings and reference identity
on objects; every object the client logs is freshly constructed per call,
so two distinct log entries never hold `===`-equal object messages —
see `LogMsg.jsStrictEq`. -/
inductive LogMsg where
  | str (s : String)
  | serverMsg (m : ServerMessage)
  | clientContentMsg (c : LiveClientContent)
  | toolResponseMsg (t : LiveClientToolResponse)
deriving DecidableEq

/-- JS `===` on log messages: value equality for strings; object messages
are freshly allocated per log call in the source, so they are never
`===`-equal across two entries. -/
def LogMsg.jsStrictEq : LogMsg → LogMsg → Bool
  | .str a, .str b => a == b
  | _, _ => false

/-- The `StreamingLog` record of the repository's `types.ts` (staged as
the second embedded document of `src/lib/text-generation.ts`, after the
doc separator): `{count?, data?, date, message, type}`.  The wall-clock
`Date` is modelled as an abstract tick, and the `data?: unknown` payload
— which no provided code ever reads or writes — by an opaque string
carrier. -/
structure StreamingLog where
  date : Nat
  type : String
  message : LogMsg
  count : Option Nat
  data : Option String := none
deriving DecidableEq

/-- An outbound frame: one of the envelope shapes `_sendDirect`
serializes to a single JSON text frame. -/
inductive ClientFrame where
  | setup (config : LiveSessionConfig)
  | realtimeInput (mediaChunks : List MediaChunk)
  | clientContent (c : LiveClientContent)
  | toolResponse (t : LiveClientToolResponse)
deriving DecidableEq

/-- One observable action of a client operation or event handler, in
program order: socket operations, emitted events (including `log` events,
whose wall-clock date is omitted), promise settlement, console output. -/
inductive Action where
  | createSocket (sock : Nat)
  | closeSocket (sock : Nat)
  | sendFrame (sock : Nat) (frame : ClientFrame)
  | emitOpen
  | emitClose
  | emitLog (type : String) (message : LogMsg)
  | emitAudio (data : List Nat)
  | emitContent (content : LiveServerContent)
  | emitInterrupted
  | emitSetupComplete
  | emitTurnComplete
  | emitToolCall (tc : LiveServerToolCall)
  | emitToolCallCancellation (c : LiveServerToolCallCancellation)
  | resolve (value : Bool)
  | reject (message : String)
  | uncaughtError (message : String)
  | consoleLog (s : String)
deriving DecidableEq

/-- Is this action a network write (`ws.send`)? -/
def Action.isSendFrame : Action → Bool
  | .sendFrame _ _ => true
  | _ => false

/-! ## Constants (`src/lib/constants.ts`) -/

def DEFAULT_HOST : String := "generativelanguage.googleapis.com"

def DEFAULT_WEBSOCKET_ENDPOINT : String :=
  "google.ai.generativelanguage.v1beta.GenerativeService.BidiGenerateContent"

def LIVE_API_WEBSOCKET_URI : String :=
  "wss://" ++ DEFAULT_HOST ++ "/ws/" ++ DEFAULT_WEBSOCKET_ENDPOINT

def DEFAULT_LIVE_API_MODEL : String := "models/gemini-2.0-flash-live-001"

/-! ## The session transport (`MultimodalLiveClient`)

The client's mutable fields (`ws`, `config`, `url`) form the state; each
method / event handler is a function from state (plus event data) to new
state and the ordered action list it performs.  Sockets are identified by
abstract ids; `createSocket n` stands for `new WebSocket(this.url)`
yielding socket `n` (listener registration on the fresh socket is implied
by it: the socket's later events are fed to `onOpen` / `onError` /
`onClose` / `receive`). -/

structure ClientState where
  ws : Option Nat
  config : Option LiveSessionConfig
  url : String
deriving DecidableEq

namespace MultimodalLiveClient

/-- The constructor: `url = (url ?? LIVE_API_WEBSOCKET_URI) + '?key=' + apiKey`,
`ws = null`, `config = null`. -/
def mkClient (url : Option String) (apiKey : String) : ClientState :=
  { ws := none
  , config := none
  , url := (url.getD LIVE_API_WEBSOCKET_URI) ++ "?key=" ++ apiKey }

/-- `this.log(type, message)`: emits a `log` event. -/
def logAction (type : String) (message : LogMsg) : Action :=
  Action.emitLog type message

/-- `_sendDirect(request)`: throws `'WebSocket is not connected'` when
`this.ws` is null, otherwise serializes the envelope and writes one frame
on the held socket. -/
def sendDirect (st : ClientState) (request : ClientFrame) :
    Except String (List Action) :=
  match st.ws with
  | none => .error "WebSocket is not connected"
  | some sock => .ok [Action.sendFrame sock request]

/-- `connect(config)`: stores the config and opens a fresh WebSocket on
`this.url`, registering its listeners; the promise is settled later by
`onOpen` / `onError`.  There is no guard on an existing connection. -/
def connect (st : ClientState) (config : LiveSessionConfig) (newSock : Nat) :
    ClientState × List Action :=
  ({ st with config := some config }, [Action.createSocket newSock])

/-- `disconnect(ws?)`: `(!ws || this.ws === ws) && this.ws` guards closing
the held socket, clearing `this.ws` and logging `client.close`. -/
def disconnect (st : ClientState) (ws : Option Nat) :
    ClientState × List Action × Bool :=
  match st.ws with
  | some cur =>
    if ws = none ∨ ws = some cur then
      ({ st with ws := none }
      , [Action.closeSocket cur, logAction "client.close" (.str "Disconnected")]
      , true)
    else (st, [], false)
  | none => (st, [], false)

/-- The `open` listener registered by `connect`: logs, emits `open`,
assigns `this.ws`, sends the setup envelope via `_sendDirect`, logs the
send, and resolves the connect promise with `true`.  (The source also
unregisters the error listener and registers the close listener here;
that bookkeeping has no observable action.) -/
def onOpen (st : ClientState) (sock : Nat) : ClientState × List Action :=
  match st.config with
  | none => (st, [Action.reject "Invalid config sent to `connect(config)`"])
  | some config =>
    let preActions := [logAction "client.open" (.str "connected to socket"),
                       Action.emitOpen]
    let st := { st with ws := some sock }
    match sendDirect st (ClientFrame.setup config) with
    | .error e => (st, preActions ++ [Action.uncaughtError e])
    | .ok sendActs =>
      (st, preActions ++ sendActs ++
        [logAction "client.send" (.str "setup"), Action.resolve true])

/-- The `error` listener registered by `connect` (active until `open`):
calls `this.disconnect(ws)`, logs, and rejects the connect promise with
an error built from the target URL. -/
def onError (st : ClientState) (sock : Nat) (evType : String) :
    ClientState × List Action :=
  let d := disconnect st (some sock)
  let message := "Could not connect to \"" ++ d.1.url ++ "\""
  (d.1, d.2.1 ++ [logAction ("server." ++ evType) (.str message),
                  Action.reject message])

/-- The close-reason extraction block of the `close` listener: if the
lowercased reason contains `'error'`, look for the exact literal
`'ERROR]'`; at a positive index, keep only what follows one character
past the marker. -/
def extractCloseReason (reason : String) : String :=
  if jsIncludes (jsToLowerCase reason) "error" then
    let marker := "ERROR]"
    let markerIndex := jsIndexOf reason marker
    if markerIndex > 0 then
      ⟨reason.data.drop (markerIndex.toNat + marker.length + 1)⟩
    else reason
  else reason

/-- The `close` listener registered once the socket opened: console-logs
the event, calls `this.disconnect(ws)`, extracts the surfaced reason from
`ev.reason || ''`, logs `server.close`, and emits `close`. -/
def onClose (st : ClientState) (sock : Nat) (evReason : Option String)
    (evType : String) : ClientState × List Action :=
  let d := disconnect st (some sock)
  let reason := extractCloseReason (evReason.getD "")
  (d.1, Action.consoleLog "close event" :: d.2.1 ++
    [logAction ("server." ++ evType)
      (.str ("disconnected " ++
        (if reason ≠ "" then "with reason: " ++ reason else ""))),
     Action.emitClose])

/-- `receive(blob)` after JSON decoding: dispatch on the first recognized
top-level key; inside `serverContent`, `interrupted` returns early,
`turnComplete` emits and falls through, `modelTurn` splits audio parts
from the rest. -/
def receive (response : ServerMessage) : List Action :=
  match response.toolCall with
  | some toolCall =>
    [logAction "server.toolCall" (.serverMsg response),
     Action.emitToolCall toolCall]
  | none =>
  match response.toolCallCancellation with
  | some c =>
    [logAction "receive.toolCallCancellation" (.serverMsg response),
     Action.emitToolCallCancellation c]
  | none =>
  if response.setupComplete then
    [logAction "server.send" (.str "setupComplete"),
     Action.emitSetupComplete]
  else
  match response.serverContent with
  | some serverContent =>
    if serverContent.interrupted then
      [logAction "receive.serverContent" (.str "interrupted"),
       Action.emitInterrupted]
    else
      (if serverContent.turnComplete then
        [logAction "server.send" (.str "turnComplete"),
         Action.emitTurnComplete]
       else []) ++
      (match serverContent.modelTurn with
       | some modelTurn =>
         let parts := modelTurn.parts
         let audioParts := parts.filter isAudioPart
         let base64s := audioParts.map (fun p => p.inlineData.bind (fun d => d.data))
         let otherParts := difference parts audioParts
         let audioActs := (base64s.map (fun b64 =>
           match b64 with
           | some b =>
             if b ≠ "" then
               let data := base64ToArrayBuffer b
               [Action.emitAudio data,
                logAction "server.audio"
                  (.str ("buffer (" ++ toString data.length ++ ")"))]
             else []
           | none => [])).flatten
         if otherParts.length = 0 then audioActs
         else
           audioActs ++
             [Action.emitContent
               { interrupted := false, turnComplete := false
               , modelTurn := some { parts := otherParts } },
              logAction "server.content" (.serverMsg response)]
       | none => [])
  | none => [Action.consoleLog "received unmatched message"]

/-- The `hasAudio` / `hasVideo` scanning loop of `sendRealtimeInput`,
breaking as soon as both are found. -/
def classifyLoop : List MediaChunk → Bool → Bool → Bool × Bool
  | [], hasAudio, hasVideo => (hasAudio, hasVideo)
  | ch :: rest, hasAudio, hasVideo =>
    let hasAudio := hasAudio || jsIncludes ch.mimeType "audio"
    let hasVideo := hasVideo || jsIncludes ch.mimeType "image"
    if hasAudio && hasVideo then (hasAudio, hasVideo)
    else classifyLoop rest hasAudio hasVideo

/-- `sendRealtimeInput(chunks)`: classifies the chunk list for the log
label, builds the `realtimeInput` envelope (chunks mapped through
verbatim), sends it, and logs `client.realtimeInput`. -/
def sendRealtimeInput (st : ClientState) (chunks : List MediaChunk) :
    Except String (List Action) := do
  let flags := classifyLoop chunks false false
  let message :=
    if flags.1 && flags.2 then "audio + video"
    else if flags.1 then "audio"
    else if flags.2 then "video"
    else "unknown"
  let sendActs ← sendDirect st (ClientFrame.realtimeInput
    (chunks.map (fun chunk => { mimeType := chunk.mimeType, data := chunk.data })))
  return sendActs ++ [logAction "client.realtimeInput" (.str message)]

/-- `sendToolResponse(toolResponse)`: wraps the payload in the
`toolResponse` envelope, sends it, logs `client.toolResponse` with the
envelope. -/
def sendToolResponse (st : ClientState) (toolResponse : LiveClientToolResponse) :
    Except String (List Action) := do
  let sendActs ← sendDirect st (ClientFrame.toolResponse toolResponse)
  return sendActs ++ [logAction "client.toolResponse" (.toolResponseMsg toolResponse)]

/-- `send(parts, turnComplete = true)`: normalizes a single part to an
array, wraps in a user turn and the `clientContent` envelope, sends it,
logs `client.send` with the `clientContent` payload. -/
def send (st : ClientState) (parts : Part ⊕ List Part)
    (turnComplete : Bool := true) : Except String (List Action) := do
  let partsArr := match parts with
    | .inl p => [p]
    | .inr ps => ps
  let content : Content := { role := "user", parts := partsArr }
  let clientContent : LiveClientContent :=
    { turns := [content], turnComplete := turnComplete }
  let sendActs ← sendDirect st (ClientFrame.clientContent clientContent)
  return sendActs ++ [logAction "client.send" (.clientContentMsg clientContent)]

end MultimodalLiveClient

/-! ## The session log store (`useLoggerStore`, deduplicating variant)

Embedding of the zustand store with consecutive-duplicate folding and
`setMaxLogs` (the variant the spec documents; an older plain variant of
`store-logger.ts` without dedup also ships in the repository). -/

structure StoreLoggerState where
  maxLogs : Nat
  logs : List StreamingLog
deriving DecidableEq

namespace StoreLogger

/-- The initial store: `maxLogs = 1000`, `logs = []`. -/
def initialState : StoreLoggerState := { maxLogs := 1000, logs := [] }

/-- `prevLog.count ? prevLog.count + 1 : 1` (JS truthiness: a missing or
zero count restarts at 1). -/
def jsBumpCount : Option Nat → Nat
  | some c => if c = 0 then 1 else c + 1
  | none => 1

/-- `addLog({date, type, message})`: when the last stored entry has the
same `type` and (strictly) equal `message`, it is replaced by a fresh
entry with a bumped count (`logs.slice(0,-1)` + replacement); otherwise
the new entry (without count) is appended to
`logs.slice(-(maxLogs - 1))`.  The incoming entry's own `count` is
discarded by the destructuring. -/
def addLog (st : StoreLoggerState) (log : StreamingLog) : StoreLoggerState :=
  match st.logs.getLast? with
  | some prevLog =>
    if prevLog.type == log.type && LogMsg.jsStrictEq prevLog.message log.message then
      { st with logs := st.logs.dropLast ++
          [{ date := log.date, type := log.type, message := log.message
           , count := some (jsBumpCount prevLog.count) }] }
    else
      { st with logs := jsSliceStart (1 - (st.maxLogs : Int)) st.logs ++
          [{ date := log.date, type := log.type, message := log.message
           , count := none }] }
  | none =>
      { st with logs := jsSliceStart (1 - (st.maxLogs : Int)) st.logs ++
          [{ date := log.date, type := log.type, message := log.message
           , count := none }] }

/-- `clearLogs()`. -/
def clearLogs (st : StoreLoggerState) : StoreLoggerState :=
  { st with logs := [] }

/-- `setMaxLogs(n)`. -/
def setMaxLogs (st : StoreLoggerState) (n : Nat) : StoreLoggerState :=
  { st with maxLogs := n }

end StoreLogger

/-! ## Claim-side specification functions

Written from the specification's wording (not from the source), for
refinement comparisons against `receive`. -/

/-- The specified audio events of a model-turn frame: for each audio part
(inline binary whose declared MIME type starts with `audio/pcm`), in
original part order and provided its base64 payload is present and
non-empty, one `audio` event with the decoded buffer followed by the
byte-length log entry. -/
def claimedAudioActions (parts : List Part) : List Action :=
  ((parts.filter isAudioPart).map (fun p =>
    match p.inlineData.bind (fun d => d.data) with
    | some b =>
      if b ≠ "" then
        [Action.emitAudio (base64ToArrayBuffer b),
         Action.emitLog "server.audio"
           (.str ("buffer (" ++ toString (base64ToArrayBuffer b).length ++ ")"))]
      else []
    | none => [])).flatten

/-- The specified content events of a model-turn frame: nothing when no
non-audio parts remain, otherwise exactly one `content` event carrying
only the non-audio parts in their original order, followed by the log of
the full original response. -/
def claimedContentActions (response : ServerMessage) (parts : List Part) :
    List Action :=
  let nonAudio := parts.filter (fun p => !(isAudioPart p))
  if nonAudio = [] then []
  else
    [Action.emitContent
      { interrupted := false, turnComplete := false
      , modelTurn := some { parts := nonAudio } },
     Action.emitLog "server.content" (.serverMsg response)]

/-- C1 as stated: in a handler trace, an `open` emission occurs only at
positions strictly after a completed setup-envelope send. -/
def OpenOnlyAfterSetupSend (acts : List Action) : Prop :=
  ∀ i : Nat, acts[i]? = some Action.emitOpen →
    ∃ j : Nat, j < i ∧ ∃ sock config,
      acts[j]? = some (Action.sendFrame sock (ClientFrame.setup config))

/-- C5 as stated: a `connect` call on a client that already holds a
connection fails (rejects) rather than starting a new connection. -/
def SecondConnectRejected : Prop :=
  ∀ (st : ClientState) (config : LiveSessionConfig) (newSock : Nat),
    st.ws ≠ none →
    (∃ m, Action.reject m ∈ (MultimodalLiveClient.connect st config newSock).2) ∨
    (∀ k, Action.createSocket k ∉ (MultimodalLiveClient.connect st config newSock).2)

/-! ## Concrete fixtures for witnesses and counterexamples -/

/-- A sample session configuration. -/
def cfgA : LiveSessionConfig := { model := DEFAULT_LIVE_API_MODEL }

/-- A freshly constructed client (no connect yet). -/
def stFresh : ClientState := MultimodalLiveClient.mkClient none "A1B2C3"

/-- A client after `connect(cfgA)` was called, before its socket opened. -/
def stReady : ClientState := { stFresh with config := some cfgA }

/-- A client whose socket 0 is open. -/
def stOpen : ClientState := { stFresh with ws := some 0, config := some cfgA }

/-- An audio/pcm part with payload `[1, 2, 3]`. -/
def pAudio1 : Part :=
  { text := none
  , inlineData := some { mimeType := some "audio/pcm;rate=24000", data := some "AQID" } }

/-- A second audio/pcm part with payload `[4, 5, 6]`. -/
def pAudio2 : Part :=
  { text := none
  , inlineData := some { mimeType := some "audio/pcm", data := some "BAUG" } }

/-- A plain text part. -/
def pText : Part := { text := some "hi", inlineData := none }

/-- An audio/pcm part with no base64 payload. -/
def pAudioNoData : Part :=
  { text := none, inlineData := some { mimeType := some "audio/pcm", data := none } }

/-- An inbound frame whose only recognized key is `serverContent`, with a
`modelTurn` carrying the given parts. -/
def modelTurnFrame (interrupted turnComplete : Bool) (parts : List Part) :
    ServerMessage :=
  { toolCall := none, toolCallCancellation := none, setupComplete := false
  , serverContent := some
      { interrupted := interrupted, turnComplete := turnComplete
      , modelTurn := some { parts := parts } } }

/-- A sample log entry without repeat count. -/
def sampleEntry (date : Nat) (type : String) : StreamingLog :=
  { date := date, type := type, message := .str type, count := none }

/-- The `{type: "x", message: "m"}` entry of P5. -/
def entryM (date : Nat) : StreamingLog :=
  { date := date, type := "x", message := .str "m", count := none }

/-- A store holding one entry. -/
def storeWithOne : StoreLoggerState := { maxLogs := 1000, logs := [entryM 0] }

/-! ## Helper lemmas -/

/-- lodash `difference(l, l.filter p)` equals `l.filter (not p)`: since
list elements are values, removing exactly the elements that occur among
the `p`-satisfying ones is removing the `p`-satisfying ones. -/
theorem difference_filter {α : Type} [DecidableEq α] (l : List α) (p : α → Bool) :
    difference l (l.filter p) = l.filter (fun x => !(p x)) := by
  unfold difference
  refine List.filter_congr ?_
  intro x hx
  simp [List.mem_filter, hx]

/-- If the exact literal `"ERROR]"` occurs at a positive index, then the
lowercased string contains `"error"`. -/
theorem jsIndexOf_pos_includes (s : String) :
    0 < jsIndexOf s "ERROR]" → jsIncludes (jsToLowerCase s) "error" = true := by
  unfold jsIndexOf
  cases hfind : (List.range (s.length + 1)).find?
      (fun i => "ERROR]".data.isPrefixOf (s.data.drop i)) with
  | none => intro h; simp at h
  | some i =>
    intro _
    have hmem : i ∈ List.range (s.length + 1) := List.mem_of_find?_eq_some hfind
    have hpred := List.find?_some hfind
    rw [List.isPrefixOf_iff_prefix] at hpred
    unfold jsIncludes
    rw [List.any_eq_true]
    refine ⟨i, ?_, ?_⟩
    · have hlen : (jsToLowerCase s).length = s.length := by
        show (s.data.map Char.toLower).length = s.data.length
        exact List.length_map _ _
      rw [List.mem_range] at hmem ⊢
      omega
    · rw [List.isPrefixOf_iff_prefix]
      have h1 : ("ERROR]".data.map Char.toLower) <+:
          ((s.data.drop i).map Char.toLower) := hpred.map _
      have h2 : ("ERROR]".data.map Char.toLower) = "error]".data := by decide
      have h3 : ("error".data) <+: ("error]".data) := by decide
      have h4 : (jsToLowerCase s).data.drop i = (s.data.drop i).map Char.toLower := by
        simp [jsToLowerCase]
      rw [h4]
      exact h3.trans (h2 ▸ h1)

/-! ## C4: close-reason extraction -/

/-- C4 counterexample: the scan is not case-insensitive on the marker.
For the reason `"foo error] bar baz"` — whose `error]` marker matches the
claimed case-insensitive scan, preceded by the prefix `"foo "` — the code
surfaces the string verbatim, not the substring `"bar baz"` after the
marker. -/
theorem c4_counterexample :
    MultimodalLiveClient.extractCloseReason "foo error] bar baz"
        = "foo error] bar baz" ∧
    "foo error] bar baz" ≠ "bar baz" := by
  constructor
  · decide
  · decide

/-- C4 amended: the close reason is surfaced verbatim unless the exact
uppercase literal `"ERROR]"` occurs at a positive index (a non-empty
prefix), in which case only the substring starting one character past the
marker is surfaced (so `"foo ERROR] bar baz"` surfaces `"bar baz"`); the
scan is total and never throws.  (The code's preliminary case-insensitive
`includes('error')` test is redundant: it is implied whenever the exact
marker occurs.) -/
theorem c4_amended (reason : String) :
    MultimodalLiveClient.extractCloseReason reason =
      (if 0 < jsIndexOf reason "ERROR]" then
        ⟨reason.data.drop ((jsIndexOf reason "ERROR]").toNat + "ERROR]".length + 1)⟩
       else reason) ∧
    MultimodalLiveClient.extractCloseReason "foo ERROR] bar baz" = "bar baz" ∧
    MultimodalLiveClient.extractCloseReason "normal goodbye" = "normal goodbye" := by
  refine ⟨?_, by decide, by decide⟩
  unfold MultimodalLiveClient.extractCloseReason
  by_cases hidx : 0 < jsIndexOf reason "ERROR]"
  · rw [if_pos (jsIndexOf_pos_includes reason hidx)]
  · cases hinc : jsIncludes (jsToLowerCase reason) "error" with
    | false => simp [hinc, hidx]
    | true => simp [hinc, hidx]

/-! ## C1: handshake order -/

/-- C1 counterexample: in the `open` handler's action trace for a fresh
connect, the `open` event (position 1) is emitted before the setup
envelope send (position 2), so "open only after the setup send completes"
fails on the code. -/
theorem c1_counterexample :
    ¬ OpenOnlyAfterSetupSend (MultimodalLiveClient.onOpen stReady 0).2 := by
  intro h
  obtain ⟨j, hj, sock, config, hget⟩ := h 1 (by decide)
  have hj0 : j = 0 := by omega
  subst hj0
  have h0 : (MultimodalLiveClient.onOpen stReady 0).2[0]?
      = some (Action.emitLog "client.open" (.str "connected to socket")) := by
    decide
  rw [h0] at hget
  simp at hget

/-- C1 amended: for every successful connect, the setup envelope
`{ setup: config }` is still the first and only frame sent on the socket
(no send can happen earlier, since `this.ws` is null until the open
handler runs), but the `open` event is emitted immediately *before* the
setup send, not after it. -/
theorem c1_amended (st : ClientState) (sock : Nat) (config : LiveSessionConfig)
    (hws : st.ws = none) (hcfg : st.config = some config) :
    (∀ f, MultimodalLiveClient.sendDirect st f
        = .error "WebSocket is not connected") ∧
    ((MultimodalLiveClient.onOpen st sock).2.filter Action.isSendFrame
        = [Action.sendFrame sock (ClientFrame.setup config)]) ∧
    ((MultimodalLiveClient.onOpen st sock).2[1]? = some Action.emitOpen) ∧
    ((MultimodalLiveClient.onOpen st sock).2[2]?
        = some (Action.sendFrame sock (ClientFrame.setup config))) := by
  refine ⟨?_, ?_, ?_, ?_⟩
  · intro f
    simp [MultimodalLiveClient.sendDirect, hws]
  · simp [MultimodalLiveClient.onOpen, hcfg, MultimodalLiveClient.sendDirect,
      MultimodalLiveClient.logAction, Action.isSendFrame]
  · simp [MultimodalLiveClient.onOpen, hcfg, MultimodalLiveClient.sendDirect,
      MultimodalLiveClient.logAction]
  · simp [MultimodalLiveClient.onOpen, hcfg, MultimodalLiveClient.sendDirect,
      MultimodalLiveClient.logAction]

/-- Witness for `c1_amended` at the fixture client. -/
theorem c1_amended_witness :
    stReady.ws = none ∧ stReady.config = some cfgA ∧
    ((MultimodalLiveClient.onOpen stReady 0).2[1]? = some Action.emitOpen) ∧
    ((MultimodalLiveClient.onOpen stReady 0).2[2]?
        = some (Action.sendFrame 0 (ClientFrame.setup cfgA))) :=
  ⟨rfl, rfl, (c1_amended stReady 0 cfgA rfl rfl).2.2.1,
    (c1_amended stReady 0 cfgA rfl rfl).2.2.2⟩

/-! ## C3: sending requires an open transport -/

/-- C3 confirmed: each outbound send operation invoked while no socket is
held (before the socket opens, or after disconnect cleared it) fails
synchronously with the `'WebSocket is not connected'` error and performs
no action at all — in particular no network write. -/
theorem c3_send_requires_open (st : ClientState) (h : st.ws = none) :
    (∀ (parts : Part ⊕ List Part) (turnComplete : Bool),
      MultimodalLiveClient.send st parts turnComplete
        = .error "WebSocket is not connected") ∧
    (∀ chunks, MultimodalLiveClient.sendRealtimeInput st chunks
        = .error "WebSocket is not connected") ∧
    (∀ toolResponse, MultimodalLiveClient.sendToolResponse st toolResponse
        = .error "WebSocket is not connected") := by
  refine ⟨fun parts turnComplete => ?_, fun chunks => ?_, fun toolResponse => ?_⟩ <;>
    simp [MultimodalLiveClient.send, MultimodalLiveClient.sendRealtimeInput,
      MultimodalLiveClient.sendToolResponse, MultimodalLiveClient.sendDirect, h,
      Bind.bind, Except.bind]

/-- Witness for `c3_send_requires_open` at a fresh client. -/
theorem c3_send_requires_open_witness :
    stFresh.ws = none ∧
    MultimodalLiveClient.send stFresh (Sum.inr [pText]) true
      = .error "WebSocket is not connected" ∧
    MultimodalLiveClient.sendRealtimeInput stFresh
      [{ mimeType := "audio/pcm", data := "AQID" }]
      = .error "WebSocket is not connected" ∧
    MultimodalLiveClient.sendToolResponse stFresh { functionResponses := [] }
      = .error "WebSocket is not connected" :=
  ⟨rfl, (c3_send_requires_open stFresh rfl).1 _ _,
    (c3_send_requires_open stFresh rfl).2.1 _,
    (c3_send_requires_open stFresh rfl).2.2 _⟩

/-! ## C5: no in-flight connection guard -/

/-- C5 counterexample: `connect` has no guard at all — called on a client
whose socket 0 is open it neither rejects nor refrains from creating a
new socket. -/
theorem c5_counterexample : ¬ SecondConnectRejected := by
  intro h
  rcases h stOpen cfgA 1 (by decide) with ⟨m, hm⟩ | hnone
  · simp [MultimodalLiveClient.connect] at hm
  · exact hnone 1 (by simp [MultimodalLiveClient.connect])

/-- C5 amended: a second `connect` while a connection is held does not
fail and is not rejected: it starts a new connection alongside the
existing one — the held socket is neither closed nor released (the `ws`
field is untouched until the new socket opens) and the stored config is
overwritten. -/
theorem c5_amended (st : ClientState) (config : LiveSessionConfig) (newSock : Nat)
    (_h : st.ws ≠ none) :
    Action.createSocket newSock ∈ (MultimodalLiveClient.connect st config newSock).2 ∧
    (∀ m, Action.reject m ∉ (MultimodalLiveClient.connect st config newSock).2) ∧
    (∀ k, Action.closeSocket k ∉ (MultimodalLiveClient.connect st config newSock).2) ∧
    (MultimodalLiveClient.connect st config newSock).1.ws = st.ws ∧
    (MultimodalLiveClient.connect st config newSock).1.config = some config := by
  refine ⟨by simp [MultimodalLiveClient.connect], ?_, ?_, rfl, rfl⟩
  · intro m hm
    simp [MultimodalLiveClient.connect] at hm
  · intro k hk
    simp [MultimodalLiveClient.connect] at hk

/-- Witness for `c5_amended` at the open-connection fixture. -/
theorem c5_amended_witness :
    stOpen.ws ≠ none ∧
    Action.createSocket 1 ∈ (MultimodalLiveClient.connect stOpen cfgA 1).2 ∧
    (MultimodalLiveClient.connect stOpen cfgA 1).1.ws = stOpen.ws :=
  ⟨by decide, (c5_amended stOpen cfgA 1 (by decide)).1,
    (c5_amended stOpen cfgA 1 (by decide)).2.2.2.1⟩

/-! ## C6: error before open -/

/-- C6, the code evaluated at the failing input: a socket error before
open on a fresh client rejects the connect promise with the descriptive
error built from the target URL and emits no `open` — but the intended
teardown does not happen: `this.disconnect(ws)` is a no-op returning
`false` (the guard `this.ws === ws` fails because `this.ws` is only
assigned in the open handler), so the trace contains no socket close. -/
theorem c6_onError_no_teardown :
    ((MultimodalLiveClient.onError stFresh 0 "error").2
      = [Action.emitLog "server.error"
          (.str ("Could not connect to \"" ++ stFresh.url ++ "\"")),
         Action.reject ("Could not connect to \"" ++ stFresh.url ++ "\"")]) ∧
    (∀ k, Action.closeSocket k ∉ (MultimodalLiveClient.onError stFresh 0 "error").2) ∧
    (Action.emitOpen ∉ (MultimodalLiveClient.onError stFresh 0 "error").2) ∧
    ((MultimodalLiveClient.disconnect stFresh (some 0)).2.2 = false) := by
  refine ⟨by decide, ?_, by decide, by decide⟩
  intro k hk
  simp [MultimodalLiveClient.onError, MultimodalLiveClient.disconnect,
    MultimodalLiveClient.logAction, stFresh, MultimodalLiveClient.mkClient] at hk

/-! ## C7: idempotent disconnect -/

/-- C7 confirmed: on a connected client, the first `disconnect` closes
the socket, logs `client.close` once and returns `true`; the second
returns `false`, performs no action (no second close log/transition) and
leaves the state unchanged. -/
theorem c7_disconnect_idempotent (st : ClientState) (sock : Nat)
    (h : st.ws = some sock) :
    ((MultimodalLiveClient.disconnect st none).2.2 = true) ∧
    ((MultimodalLiveClient.disconnect st none).2.1
      = [Action.closeSocket sock,
         Action.emitLog "client.close" (.str "Disconnected")]) ∧
    ((MultimodalLiveClient.disconnect st none).1.ws = none) ∧
    ((MultimodalLiveClient.disconnect
        (MultimodalLiveClient.disconnect st none).1 none).2.2 = false) ∧
    ((MultimodalLiveClient.disconnect
        (MultimodalLiveClient.disconnect st none).1 none).2.1 = []) ∧
    ((MultimodalLiveClient.disconnect
        (MultimodalLiveClient.disconnect st none).1 none).1
      = (MultimodalLiveClient.disconnect st none).1) := by
  simp [MultimodalLiveClient.disconnect, h, MultimodalLiveClient.logAction]

/-! ## C2 and C10: the serverContent demultiplexer -/

/-- Shared demultiplexer characterization: a pure model-turn frame (not
interrupted) produces the turn-complete events when flagged, then the
claimed audio events, then the claimed content events. -/
theorem receive_modelTurnFrame (parts : List Part) (tc : Bool) :
    MultimodalLiveClient.receive (modelTurnFrame false tc parts) =
      (if tc then
        [Action.emitLog "server.send" (.str "turnComplete"),
         Action.emitTurnComplete]
       else []) ++
      claimedAudioActions parts ++
      claimedContentActions (modelTurnFrame false tc parts) parts := by
  simp only [MultimodalLiveClient.receive, modelTurnFrame,
    MultimodalLiveClient.logAction]
  rw [difference_filter]
  by_cases hnil : parts.filter (fun p => !(isAudioPart p)) = []
  · simp [claimedAudioActions, claimedContentActions, hnil, List.map_map,
      Function.comp_def]
  · simp [claimedAudioActions, claimedContentActions, hnil, List.map_map,
      Function.comp_def, List.length_eq_zero]

/-- C2 counterexample: an audio part (MIME type `audio/pcm`) whose base64
payload is absent produces *no* audio event — the frame below holds
exactly one audio part yet `receive` emits nothing — contradicting "one
audio event per audio part". -/
theorem c2_counterexample :
    isAudioPart pAudioNoData = true ∧
    MultimodalLiveClient.receive (modelTurnFrame false false [pAudioNoData])
      = [] := by
  constructor
  · decide
  · decide

/-- C2 amended: for every model-turn frame, the parts are partitioned
into audio parts and the rest preserving order; one audio event fires per
audio part *whose base64 payload is present and non-empty*, in original
order; no content event fires when no non-audio parts remain; otherwise
exactly one content event fires carrying only the non-audio parts in
original order.  The P3 `[audioPCM, text, audioPCM]` and P4 all-audio
instances are included. -/
theorem c2_amended :
    (∀ (parts : List Part) (tc : Bool),
      MultimodalLiveClient.receive (modelTurnFrame false tc parts) =
        (if tc then
          [Action.emitLog "server.send" (.str "turnComplete"),
           Action.emitTurnComplete]
         else []) ++
        claimedAudioActions parts ++
        claimedContentActions (modelTurnFrame false tc parts) parts) ∧
    (MultimodalLiveClient.receive
        (modelTurnFrame false false [pAudio1, pText, pAudio2]) =
      [Action.emitAudio [1, 2, 3],
       Action.emitLog "server.audio" (.str "buffer (3)"),
       Action.emitAudio [4, 5, 6],
       Action.emitLog "server.audio" (.str "buffer (3)"),
       Action.emitContent
         { interrupted := false, turnComplete := false
         , modelTurn := some { parts := [pText] } },
       Action.emitLog "server.content"
         (.serverMsg (modelTurnFrame false false [pAudio1, pText, pAudio2]))]) ∧
    (MultimodalLiveClient.receive (modelTurnFrame false false [pAudio1, pAudio2]) =
      [Action.emitAudio [1, 2, 3],
       Action.emitLog "server.audio" (.str "buffer (3)"),
       Action.emitAudio [4, 5, 6],
       Action.emitLog "server.audio" (.str "buffer (3)")]) := by
  refine ⟨fun parts tc => receive_modelTurnFrame parts tc, ?_, ?_⟩
  · decide
  · decide

/-- C10 confirmed: the `turnComplete` branch does not return early — a
frame carrying both `turnComplete` and `modelTurn` (and no `interrupted`)
emits the turncomplete event *and* the audio/content events of the same
frame; only the `interrupted` branch stops further processing. -/
theorem c10_turncomplete_not_exclusive :
    (∀ parts : List Part,
      MultimodalLiveClient.receive (modelTurnFrame false true parts) =
        [Action.emitLog "server.send" (.str "turnComplete"),
         Action.emitTurnComplete] ++
        claimedAudioActions parts ++
        claimedContentActions (modelTurnFrame false true parts) parts) ∧
    (∀ (msg : ServerMessage) (sc : LiveServerContent),
      msg.toolCall = none → msg.toolCallCancellation = none →
      msg.setupComplete = false → msg.serverContent = some sc →
      sc.interrupted = true →
      MultimodalLiveClient.receive msg =
        [Action.emitLog "receive.serverContent" (.str "interrupted"),
         Action.emitInterrupted]) ∧
    (Action.emitTurnComplete ∈
        MultimodalLiveClient.receive (modelTurnFrame false true [pText]) ∧
     Action.emitContent
         { interrupted := false, turnComplete := false
         , modelTurn := some { parts := [pText] } } ∈
        MultimodalLiveClient.receive (modelTurnFrame false true [pText])) := by
  refine ⟨fun parts => ?_, fun msg sc h1 h2 h3 h4 h5 => ?_, by decide, by decide⟩
  · simpa using receive_modelTurnFrame parts true
  · simp [MultimodalLiveClient.receive, h1, h2, h3, h4, h5,
      MultimodalLiveClient.logAction]

/-- Witness for `c10_turncomplete_not_exclusive` (interrupted conjunct)
at a frame that also carries `turnComplete` and a model turn. -/
theorem c10_turncomplete_not_exclusive_witness :
    (modelTurnFrame true true [pText]).serverContent
      = some { interrupted := true, turnComplete := true
             , modelTurn := some { parts := [pText] } } ∧
    MultimodalLiveClient.receive (modelTurnFrame true true [pText]) =
      [Action.emitLog "receive.serverContent" (.str "interrupted"),
       Action.emitInterrupted] :=
  ⟨rfl, c10_turncomplete_not_exclusive.2.1 _ _ rfl rfl rfl rfl rfl⟩

/-! ## C8: log deduplication -/

/-- C8 confirmed: when the most recent stored entry has the same category
and (strictly equal) message, `addLog` replaces it in place — the store
does not grow and the replacement carries the bumped repeat-count — and
the P5 scenario holds: three identical appends leave one entry whose
count goes absent → 1 → 2. -/
theorem c8_log_dedup (st : StoreLoggerState) (log prevLog : StreamingLog)
    (hl : st.logs.getLast? = some prevLog)
    (ht : prevLog.type = log.type)
    (hm : LogMsg.jsStrictEq prevLog.message log.message = true) :
    ((StoreLogger.addLog st log).logs.length = st.logs.length) ∧
    ((StoreLogger.addLog st log).logs.getLast?
        = some { date := log.date, type := log.type, message := log.message
               , count := some (StoreLogger.jsBumpCount prevLog.count) }) ∧
    ((StoreLogger.addLog StoreLogger.initialState (entryM 0)).logs
        = [{ date := 0, type := "x", message := .str "m", count := none }]) ∧
    ((StoreLogger.addLog (StoreLogger.addLog StoreLogger.initialState (entryM 0))
        (entryM 1)).logs
        = [{ date := 1, type := "x", message := .str "m", count := some 1 }]) ∧
    ((StoreLogger.addLog (StoreLogger.addLog
        (StoreLogger.addLog StoreLogger.initialState (entryM 0)) (entryM 1))
        (entryM 2)).logs
        = [{ date := 2, type := "x", message := .str "m", count := some 2 }]) := by
  have hne : st.logs ≠ [] := by
    intro hn
    rw [hn] at hl
    simp at hl
  have hpos : 0 < st.logs.length := List.length_pos.mpr hne
  refine ⟨?_, ?_, by decide, by decide, by decide⟩
  · simp only [StoreLogger.addLog, hl]
    simp [ht, hm]
    omega
  · simp only [StoreLogger.addLog, hl]
    simp [ht, hm, List.getLast?_concat]

/-- Witness for `c8_log_dedup` at a one-entry store. -/
theorem c8_log_dedup_witness :
    storeWithOne.logs.getLast? = some (entryM 0) ∧
    (StoreLogger.addLog storeWithOne (entryM 1)).logs.length
      = storeWithOne.logs.length :=
  ⟨rfl, (c8_log_dedup storeWithOne (entryM 1) (entryM 0) rfl rfl (by decide)).1⟩

/-! ## C9: capacity bound and FIFO eviction -/

/-- C9 counterexample: the bound "size ≤ capacity after every operation"
fails — with capacity set to 1, appending two distinct entries leaves two
stored entries (the non-duplicate branch keeps `slice(-(maxLogs - 1))` =
`slice(0)`, the whole list). -/
theorem c9_counterexample :
    (StoreLogger.addLog (StoreLogger.addLog
        (StoreLogger.setMaxLogs StoreLogger.initialState 1)
        (sampleEntry 1 "a")) (sampleEntry 2 "b")).maxLogs = 1 ∧
    (StoreLogger.addLog (StoreLogger.addLog
        (StoreLogger.setMaxLogs StoreLogger.initialState 1)
        (sampleEntry 1 "a")) (sampleEntry 2 "b")).logs.length = 2 := by
  constructor
  · decide
  · decide

/-- Bounding the slice the non-duplicate append branch keeps. -/
theorem jsSliceStart_length_le {α : Type} (m : Nat) (xs : List α) (h : 2 ≤ m) :
    (jsSliceStart (1 - (m : Int)) xs).length ≤ m - 1 := by
  unfold jsSliceStart
  have hneg : (1 - (m : Int)) < 0 := by omega
  rw [if_pos hneg]
  have habs : (1 - (m : Int)).natAbs = m - 1 := by omega
  rw [habs, List.length_drop]
  omega

/-- C9 amended: `addLog` keeps size ≤ capacity (with oldest-first
eviction) whenever the capacity is at least 2 and the store was within
capacity; `clearLogs` empties the store; and the P6 scenario holds (with
capacity 2, three distinct appends leave exactly the last two entries in
oldest-first order).  Capacities ≤ 1 are not maintained (see the
counterexample) and `setMaxLogs` itself evicts nothing. -/
theorem c9_amended :
    (∀ (st : StoreLoggerState) (log : StreamingLog),
      2 ≤ st.maxLogs → st.logs.length ≤ st.maxLogs →
      (StoreLogger.addLog st log).logs.length ≤ st.maxLogs) ∧
    (∀ st : StoreLoggerState, (StoreLogger.clearLogs st).logs = []) ∧
    ((StoreLogger.addLog (StoreLogger.addLog (StoreLogger.addLog
        { maxLogs := 2, logs := [] } (sampleEntry 1 "a")) (sampleEntry 2 "b"))
        (sampleEntry 3 "c")).logs
      = [{ date := 2, type := "b", message := .str "b", count := none },
         { date := 3, type := "c", message := .str "c", count := none }]) := by
  refine ⟨fun st log h2 hlen => ?_, fun st => rfl, by decide⟩
  have hslice := jsSliceStart_length_le st.maxLogs st.logs h2
  cases hl : st.logs.getLast? with
  | none =>
    simp only [StoreLogger.addLog, hl]
    simp
    omega
  | some prevLog =>
    have hne : st.logs ≠ [] := by
      intro hn
      rw [hn] at hl
      simp at hl
    have hpos : 0 < st.logs.length := List.length_pos.mpr hne
    simp only [StoreLogger.addLog, hl]
    by_cases hc : (prevLog.type == log.type &&
        LogMsg.jsStrictEq prevLog.message log.message) = true
    · rw [if_pos hc]
      simp
      omega
    · rw [if_neg hc]
      simp
      omega

/-- Witness for `c9_amended` at a full capacity-2 store. -/
theorem c9_amended_witness :
    (StoreLogger.addLog
        { maxLogs := 2, logs := [sampleEntry 1 "a", sampleEntry 2 "b"] }
        (sampleEntry 3 "c")).logs.length ≤ 2 :=
  c9_amended.1 { maxLogs := 2, logs := [sampleEntry 1 "a", sampleEntry 2 "b"] }
    (sampleEntry 3 "c") (by decide) (by decide)

/-- Witness for `c7_disconnect_idempotent` at the open-connection
fixture. -/
theorem c7_disconnect_idempotent_witness :
    stOpen.ws = some 0 ∧
    ((MultimodalLiveClient.disconnect stOpen none).2.2 = true) ∧
    ((MultimodalLiveClient.disconnect
        (MultimodalLiveClient.disconnect stOpen none).1 none).2.2 = false) ∧
    ((MultimodalLiveClient.disconnect
        (MultimodalLiveClient.disconnect stOpen none).1 none).2.1 = []) :=
  ⟨rfl, (c7_disconnect_idempotent stOpen 0 rfl).1,
    (c7_disconnect_idempotent stOpen 0 rfl).2.2.2.1,
    (c7_disconnect_idempotent stOpen 0 rfl).2.2.2.2.1⟩

end GeminiLive
